import Mathlib

/-!
Verification development for the infrar Python SDK
(agnostic object-storage call surface) and for the deployment-time
transformer that its specification describes.

Part A embeds the module `infrar/storage/__init__.py`: four stub
functions (`upload`, `download`, `delete`, `list_objects`) whose bodies
unconditionally raise `NotImplementedError`, together with the Python
call-binding semantics (positional and keyword arguments, defaults)
needed to reason about their signatures.

Part B models, from the specification, the transformer subsystem that is
referenced by the repository but not shipped in it: the Operation Schema
Registry, Source Scanner, Provider Adapter Map, Call Rewriter,
Import/Preamble Injector and Transform Orchestrator.
-/

/-- A Python runtime value, covering the shapes the stub functions may receive. -/
inductive PyValue where
  | str : String → PyValue
  | int : Int → PyValue
  | bool : Bool → PyValue
  | noneV : PyValue
deriving DecidableEq

/-- A raised Python exception: its class name and its message text. -/
structure PyException where
  name : String
  message : String
deriving DecidableEq

/-- Outcome of executing a Python callable: a normal return or a raised exception. -/
inductive PyOutcome (α : Type) where
  | ok : α → PyOutcome α
  | raised : PyException → PyOutcome α
deriving DecidableEq

/-- The external state a Python function could observe or mutate: the process
environment (for example INFRAR_PROVIDER), a file system, and an I/O trace. -/
structure PyState where
  env : List (String × String)
  fileSystem : List (String × String)
  ioTrace : List String
deriving DecidableEq

/-- A formal parameter of a Python function: its name, whether it has a
default, and the default value when it does. -/
structure Param where
  name : String
  hasDefault : Bool
  default : PyValue
deriving DecidableEq

/-- TypeError raised when a call passes more positional arguments than parameters. -/
def typeErrorTooMany (fname : String) : PyException :=
  ⟨"TypeError", fname ++ "() takes too many positional arguments"⟩

/-- TypeError raised when a call passes a keyword that names no parameter. -/
def typeErrorUnexpectedKw (fname : String) : PyException :=
  ⟨"TypeError", fname ++ "() got an unexpected keyword argument"⟩

/-- TypeError raised when a parameter receives both a positional and a keyword value. -/
def typeErrorMultiple (fname pname : String) : PyException :=
  ⟨"TypeError", fname ++ "() got multiple values for argument " ++ pname⟩

/-- TypeError raised when a required parameter receives no value. -/
def typeErrorMissing (fname pname : String) : PyException :=
  ⟨"TypeError", fname ++ "() missing required positional argument " ++ pname⟩

/-- Bind each parameter, in order, to its positional value, its keyword value,
or its default, following the Python calling convention; the index i counts
how many parameters precede the current one. -/
def bindLoop (fname : String) : List Param → Nat → List PyValue → List (String × PyValue) →
    Except PyException (List (String × PyValue))
  | [], _, _, _ => Except.ok []
  | p :: ps, i, pos, kw =>
    match pos.get? i, kw.lookup p.name with
    | some _, some _ => Except.error (typeErrorMultiple fname p.name)
    | some v, Option.none =>
      (bindLoop fname ps (i + 1) pos kw).map (fun rest => (p.name, v) :: rest)
    | Option.none, some v =>
      (bindLoop fname ps (i + 1) pos kw).map (fun rest => (p.name, v) :: rest)
    | Option.none, Option.none =>
      if p.hasDefault then
        (bindLoop fname ps (i + 1) pos kw).map (fun rest => (p.name, p.default) :: rest)
      else Except.error (typeErrorMissing fname p.name)

/-- Python call binding: positional arguments `pos` and keyword arguments `kw`
are matched against `params`; the result maps every parameter name to a value,
or a TypeError is raised. -/
def bindArgs (fname : String) (params : List Param) (pos : List PyValue)
    (kw : List (String × PyValue)) : Except PyException (List (String × PyValue)) :=
  if params.length < pos.length then Except.error (typeErrorTooMany fname)
  else if kw.any (fun a => !(params.any (fun p => p.name == a.1))) then
    Except.error (typeErrorUnexpectedKw fname)
  else bindLoop fname params 0 pos kw

/-- The message of the NotImplementedError raised by every stub body
(src/infrar/storage/init lines 77-81, 117-121, 154-158, 196-200); Python
concatenates the three adjacent string literals. -/
def notImplementedMessage : String :=
  "This function is transformed at deployment time. " ++
  "For local development, set INFRAR_PROVIDER environment variable " ++
  "or install provider-specific extras: pip install infrar[aws]"

/-- The exception value every stub body raises. -/
def notImplementedError : PyException :=
  ⟨"NotImplementedError", notImplementedMessage⟩

/-- Parameters of upload: bucket, source, destination, all required (line 41). -/
def uploadParams : List Param :=
  [⟨"bucket", false, PyValue.noneV⟩, ⟨"source", false, PyValue.noneV⟩,
   ⟨"destination", false, PyValue.noneV⟩]

/-- Parameters of download: bucket, source, destination, all required (line 84). -/
def downloadParams : List Param :=
  [⟨"bucket", false, PyValue.noneV⟩, ⟨"source", false, PyValue.noneV⟩,
   ⟨"destination", false, PyValue.noneV⟩]

/-- Parameters of delete: bucket, path, all required (line 124). -/
def deleteParams : List Param :=
  [⟨"bucket", false, PyValue.noneV⟩, ⟨"path", false, PyValue.noneV⟩]

/-- Parameters of list objects: bucket required, prefix defaulting to the
empty string (line 161). -/
def list_objectsParams : List Param :=
  [⟨"bucket", false, PyValue.noneV⟩, ⟨"prefix", true, PyValue.str ""⟩]

/-- Body of upload (lines 74-81): a bare raise of NotImplementedError; it
reads neither the bound arguments nor any part of the state. -/
def uploadBody (s : PyState) (_binds : List (String × PyValue)) :
    PyState × PyOutcome PyValue :=
  (s, PyOutcome.raised notImplementedError)

/-- Body of download (lines 117-121): a bare raise of NotImplementedError. -/
def downloadBody (s : PyState) (_binds : List (String × PyValue)) :
    PyState × PyOutcome PyValue :=
  (s, PyOutcome.raised notImplementedError)

/-- Body of delete (lines 154-158): a bare raise of NotImplementedError. -/
def deleteBody (s : PyState) (_binds : List (String × PyValue)) :
    PyState × PyOutcome PyValue :=
  (s, PyOutcome.raised notImplementedError)

/-- Body of list objects (lines 196-200): a bare raise of NotImplementedError. -/
def list_objectsBody (s : PyState) (_binds : List (String × PyValue)) :
    PyState × PyOutcome PyValue :=
  (s, PyOutcome.raised notImplementedError)

/-- The type of a Python function as seen by a caller: state in, positional
and keyword arguments in, state and outcome out. -/
def PyFunction : Type :=
  PyState → List PyValue → List (String × PyValue) → PyState × PyOutcome PyValue

/-- Calling a Python function: bind the arguments against the parameter list
(raising TypeError on mismatch), then run the body on the bindings. -/
def callPy (fname : String) (params : List Param)
    (body : PyState → List (String × PyValue) → PyState × PyOutcome PyValue) :
    PyFunction :=
  fun s pos kw =>
    match bindArgs fname params pos kw with
    | Except.error e => (s, PyOutcome.raised e)
    | Except.ok b => body s b

/-- The stub function upload of infrar.storage. -/
def upload : PyFunction := callPy "upload" uploadParams uploadBody

/-- The stub function download of infrar.storage. -/
def download : PyFunction := callPy "download" downloadParams downloadBody

/-- The stub function delete of infrar.storage. -/
def delete : PyFunction := callPy "delete" deleteParams deleteBody

/-- The stub function list objects of infrar.storage. -/
def list_objects : PyFunction := callPy "list_objects" list_objectsParams list_objectsBody

/-- The export list of the module: its dunder all variable (line 38). -/
def storage_all : List String := ["upload", "download", "delete", "list_objects"]

/-- The function bindings the module infrar.storage defines, name to callable. -/
def storageModule : List (String × PyFunction) :=
  [("upload", upload), ("download", download), ("delete", delete),
   ("list_objects", list_objects)]

/-! Theorems about the call surface (Part A). -/

/-- Helper: a call whose body is the stub raise never returns normally. -/
theorem callPy_stub_ne_ok (fname : String) (params : List Param)
    (s : PyState) (pos : List PyValue) (kw : List (String × PyValue)) (v : PyValue) :
    (callPy fname params (fun st _ => (st, PyOutcome.raised notImplementedError)) s pos kw).2 ≠
      PyOutcome.ok v := by
  unfold callPy
  cases bindArgs fname params pos kw <;> simp

/-- Helper: when binding succeeds, a call whose body is the stub raise
produces exactly the NotImplementedError outcome and leaves the state alone. -/
theorem callPy_stub_raises (fname : String) (params : List Param)
    (s : PyState) (pos : List PyValue) (kw : List (String × PyValue))
    (b : List (String × PyValue))
    (h : bindArgs fname params pos kw = Except.ok b) :
    callPy fname params (fun st _ => (st, PyOutcome.raised notImplementedError)) s pos kw =
      (s, PyOutcome.raised notImplementedError) := by
  unfold callPy
  rw [h]

/-- Helper: a call whose body is the stub raise always yields some raised
exception, never a normal return. -/
theorem callPy_stub_raised_exists (fname : String) (params : List Param)
    (s : PyState) (pos : List PyValue) (kw : List (String × PyValue)) :
    ∃ e, (callPy fname params
      (fun st _ => (st, PyOutcome.raised notImplementedError)) s pos kw).2 =
        PyOutcome.raised e := by
  unfold callPy
  cases bindArgs fname params pos kw <;> exact ⟨_, rfl⟩

/-- C1: every operation of the agnostic call surface (upload, download,
delete, list objects) unconditionally fails: it never returns normally for
any arguments, and for every well-bound argument list it raises
NotImplementedError. -/
theorem stub_operations_unconditionally_raise :
    (∀ s pos kw v, (upload s pos kw).2 ≠ PyOutcome.ok v ∧
      (download s pos kw).2 ≠ PyOutcome.ok v ∧
      (delete s pos kw).2 ≠ PyOutcome.ok v ∧
      (list_objects s pos kw).2 ≠ PyOutcome.ok v) ∧
    (∀ s pos kw b,
      (bindArgs "upload" uploadParams pos kw = Except.ok b →
        (upload s pos kw).2 = PyOutcome.raised notImplementedError) ∧
      (bindArgs "download" downloadParams pos kw = Except.ok b →
        (download s pos kw).2 = PyOutcome.raised notImplementedError) ∧
      (bindArgs "delete" deleteParams pos kw = Except.ok b →
        (delete s pos kw).2 = PyOutcome.raised notImplementedError) ∧
      (bindArgs "list_objects" list_objectsParams pos kw = Except.ok b →
        (list_objects s pos kw).2 = PyOutcome.raised notImplementedError)) := by
  constructor
  · intro s pos kw v
    exact ⟨callPy_stub_ne_ok "upload" uploadParams s pos kw v,
      callPy_stub_ne_ok "download" downloadParams s pos kw v,
      callPy_stub_ne_ok "delete" deleteParams s pos kw v,
      callPy_stub_ne_ok "list_objects" list_objectsParams s pos kw v⟩
  · intro s pos kw b
    exact ⟨fun h => congrArg Prod.snd (callPy_stub_raises "upload" uploadParams s pos kw b h),
      fun h => congrArg Prod.snd (callPy_stub_raises "download" downloadParams s pos kw b h),
      fun h => congrArg Prod.snd (callPy_stub_raises "delete" deleteParams s pos kw b h),
      fun h => congrArg Prod.snd
        (callPy_stub_raises "list_objects" list_objectsParams s pos kw b h)⟩

/-- C1 witness: at a concrete well-formed call the four operations raise
NotImplementedError. -/
theorem stub_operations_unconditionally_raise_witness :
    (upload ⟨[], [], []⟩ []
      [("bucket", PyValue.str "test"), ("source", PyValue.str "file.txt"),
       ("destination", PyValue.str "dest.txt")]).2 =
      PyOutcome.raised notImplementedError ∧
    (delete ⟨[], [], []⟩ []
      [("bucket", PyValue.str "test"), ("path", PyValue.str "file.txt")]).2 =
      PyOutcome.raised notImplementedError :=
  ⟨(stub_operations_unconditionally_raise.2 ⟨[], [], []⟩ []
      [("bucket", PyValue.str "test"), ("source", PyValue.str "file.txt"),
       ("destination", PyValue.str "dest.txt")]
      [("bucket", PyValue.str "test"), ("source", PyValue.str "file.txt"),
       ("destination", PyValue.str "dest.txt")]).1 rfl,
   (stub_operations_unconditionally_raise.2 ⟨[], [], []⟩ []
      [("bucket", PyValue.str "test"), ("path", PyValue.str "file.txt")]
      [("bucket", PyValue.str "test"), ("path", PyValue.str "file.txt")]).2.2.1 rfl⟩

/-- C2: the export list of the module is exactly the four canonical
operation names, and each name is bound to a callable in the module. -/
theorem storage_exports_exactly_registry_names :
    storage_all = ["upload", "download", "delete", "list_objects"] ∧
    storageModule.map Prod.fst = storage_all ∧
    (storageModule.lookup "upload").isSome = true ∧
    (storageModule.lookup "download").isSome = true ∧
    (storageModule.lookup "delete").isSome = true ∧
    (storageModule.lookup "list_objects").isSome = true :=
  ⟨rfl, rfl, rfl, rfl, rfl, rfl⟩

/-- C3: each operation accepts all of its Registry parameters by keyword;
upload takes exactly bucket, source, destination in that order, all
required, and list objects accepts the keywords bucket and prefix. -/
theorem operations_accept_registry_keywords :
    uploadParams.map Param.name = ["bucket", "source", "destination"] ∧
    uploadParams.all (fun p => !p.hasDefault) = true ∧
    (∀ b v d : PyValue,
      bindArgs "upload" uploadParams []
          [("bucket", b), ("source", v), ("destination", d)] =
        Except.ok [("bucket", b), ("source", v), ("destination", d)]) ∧
    (∀ b v d : PyValue,
      bindArgs "download" downloadParams []
          [("bucket", b), ("source", v), ("destination", d)] =
        Except.ok [("bucket", b), ("source", v), ("destination", d)]) ∧
    (∀ b v : PyValue,
      bindArgs "delete" deleteParams [] [("bucket", b), ("path", v)] =
        Except.ok [("bucket", b), ("path", v)]) ∧
    (∀ b p : PyValue,
      bindArgs "list_objects" list_objectsParams [] [("bucket", b), ("prefix", p)] =
        Except.ok [("bucket", b), ("prefix", p)]) := by
  refine ⟨rfl, rfl, ?_, ?_, ?_, ?_⟩ <;> intros <;> rfl

/-- C4: no operation reads the environment or any other external state:
the outcome of a call is the same under any two states, and every
well-bound call of every operation produces the very same exception value,
with byte-identical message text. -/
theorem operations_independent_of_environment :
    (∀ s₁ s₂ pos kw,
      (upload s₁ pos kw).2 = (upload s₂ pos kw).2 ∧
      (download s₁ pos kw).2 = (download s₂ pos kw).2 ∧
      (delete s₁ pos kw).2 = (delete s₂ pos kw).2 ∧
      (list_objects s₁ pos kw).2 = (list_objects s₂ pos kw).2) ∧
    (∀ s pos kw b,
      (bindArgs "upload" uploadParams pos kw = Except.ok b →
        (upload s pos kw).2 = PyOutcome.raised
          ⟨"NotImplementedError", notImplementedMessage⟩) ∧
      (bindArgs "list_objects" list_objectsParams pos kw = Except.ok b →
        (list_objects s pos kw).2 = PyOutcome.raised
          ⟨"NotImplementedError", notImplementedMessage⟩)) := by
  constructor
  · intro s₁ s₂ pos kw
    refine ⟨?_, ?_, ?_, ?_⟩ <;>
      · simp only [upload, download, delete, list_objects, callPy]
        cases bindArgs _ _ pos kw <;> rfl
  · intro s pos kw b
    exact ⟨fun h => congrArg Prod.snd (callPy_stub_raises _ _ s pos kw b h),
      fun h => congrArg Prod.snd (callPy_stub_raises _ _ s pos kw b h)⟩

/-- C4 witness: a call with INFRAR_PROVIDER set and a call without it give
the identical NotImplementedError outcome. -/
theorem operations_independent_of_environment_witness :
    (upload ⟨[("INFRAR_PROVIDER", "aws")], [], []⟩ []
      [("bucket", PyValue.str "b"), ("source", PyValue.str "s"),
       ("destination", PyValue.str "d")]).2 =
      PyOutcome.raised ⟨"NotImplementedError", notImplementedMessage⟩ ∧
    (upload ⟨[], [], []⟩ []
      [("bucket", PyValue.str "b"), ("source", PyValue.str "s"),
       ("destination", PyValue.str "d")]).2 =
      PyOutcome.raised ⟨"NotImplementedError", notImplementedMessage⟩ :=
  ⟨(operations_independent_of_environment.2 ⟨[("INFRAR_PROVIDER", "aws")], [], []⟩ []
      [("bucket", PyValue.str "b"), ("source", PyValue.str "s"),
       ("destination", PyValue.str "d")]
      [("bucket", PyValue.str "b"), ("source", PyValue.str "s"),
       ("destination", PyValue.str "d")]).1 rfl,
   (operations_independent_of_environment.2 ⟨[], [], []⟩ []
      [("bucket", PyValue.str "b"), ("source", PyValue.str "s"),
       ("destination", PyValue.str "d")]
      [("bucket", PyValue.str "b"), ("source", PyValue.str "s"),
       ("destination", PyValue.str "d")]).1 rfl⟩

/-- C5: every operation raises before inspecting its arguments and has no
side effect: the state (environment, file system, I/O trace) after any call
equals the state before, the stub bodies are constant in their argument
bindings, and no call ever returns normally for arguments of any type. -/
theorem operations_raise_without_side_effects :
    (∀ s pos kw,
      (upload s pos kw).1 = s ∧ (download s pos kw).1 = s ∧
      (delete s pos kw).1 = s ∧ (list_objects s pos kw).1 = s) ∧
    (∀ s b b',
      uploadBody s b = uploadBody s b' ∧ downloadBody s b = downloadBody s b' ∧
      deleteBody s b = deleteBody s b' ∧ list_objectsBody s b = list_objectsBody s b') ∧
    (∀ s pos kw, ∃ e₁ e₂ e₃ e₄,
      (upload s pos kw).2 = PyOutcome.raised e₁ ∧
      (download s pos kw).2 = PyOutcome.raised e₂ ∧
      (delete s pos kw).2 = PyOutcome.raised e₃ ∧
      (list_objects s pos kw).2 = PyOutcome.raised e₄) := by
  refine ⟨fun s pos kw => ?_, fun s b b' => ⟨rfl, rfl, rfl, rfl⟩, fun s pos kw => ?_⟩
  · refine ⟨?_, ?_, ?_, ?_⟩ <;>
      · simp only [upload, download, delete, list_objects, callPy]
        cases bindArgs _ _ pos kw <;> rfl
  · obtain ⟨e₁, h₁⟩ := callPy_stub_raised_exists "upload" uploadParams s pos kw
    obtain ⟨e₂, h₂⟩ := callPy_stub_raised_exists "download" downloadParams s pos kw
    obtain ⟨e₃, h₃⟩ := callPy_stub_raised_exists "delete" deleteParams s pos kw
    obtain ⟨e₄, h₄⟩ := callPy_stub_raised_exists "list_objects" list_objectsParams s pos kw
    exact ⟨e₁, e₂, e₃, e₄, h₁, h₂, h₃, h₄⟩

/-- C6: the prefix parameter of list objects is optional with default the
empty string, so a call omitting it behaves identically to a call passing
the empty string; upload, download and delete have only required
parameters, and omitting any one of them raises a TypeError. -/
theorem list_objects_prefix_optional_defaults_empty :
    (∀ b : PyValue,
      bindArgs "list_objects" list_objectsParams [] [("bucket", b)] =
        bindArgs "list_objects" list_objectsParams []
          [("bucket", b), ("prefix", PyValue.str "")]) ∧
    (∀ s b, list_objects s [] [("bucket", b)] =
      list_objects s [] [("bucket", b), ("prefix", PyValue.str "")]) ∧
    ((list_objectsParams.filter (fun p => p.hasDefault)).map
        (fun p => (p.name, p.default)) = [("prefix", PyValue.str "")]) ∧
    uploadParams.all (fun p => !p.hasDefault) = true ∧
    downloadParams.all (fun p => !p.hasDefault) = true ∧
    deleteParams.all (fun p => !p.hasDefault) = true ∧
    (∀ b v : PyValue,
      bindArgs "upload" uploadParams [] [("source", b), ("destination", v)] =
        Except.error (typeErrorMissing "upload" "bucket") ∧
      bindArgs "upload" uploadParams [] [("bucket", b), ("destination", v)] =
        Except.error (typeErrorMissing "upload" "source") ∧
      bindArgs "upload" uploadParams [] [("bucket", b), ("source", v)] =
        Except.error (typeErrorMissing "upload" "destination") ∧
      bindArgs "download" downloadParams [] [("source", b), ("destination", v)] =
        Except.error (typeErrorMissing "download" "bucket") ∧
      bindArgs "download" downloadParams [] [("bucket", b), ("destination", v)] =
        Except.error (typeErrorMissing "download" "source") ∧
      bindArgs "download" downloadParams [] [("bucket", b), ("source", v)] =
        Except.error (typeErrorMissing "download" "destination")) ∧
    (∀ v : PyValue,
      bindArgs "delete" deleteParams [] [("path", v)] =
        Except.error (typeErrorMissing "delete" "bucket") ∧
      bindArgs "delete" deleteParams [] [("bucket", v)] =
        Except.error (typeErrorMissing "delete" "path")) := by
  exact ⟨fun b => rfl, fun s b => rfl, rfl, rfl, rfl, rfl,
    fun b v => ⟨rfl, rfl, rfl, rfl, rfl, rfl⟩, fun v => ⟨rfl, rfl⟩⟩

/-! Part B: the transformer, modelled from the specification. -/

/-- Modelled from the spec: severity of a Diagnostic (data model of the
transformer, which the repository references but does not ship). -/
inductive Sev where
  | info : Sev
  | warning : Sev
  | error : Sev
deriving DecidableEq

/-- Modelled from the spec: one parameter of an OperationSpec in the
Operation Schema Registry: name, type and whether it is required. -/
structure RegParam where
  name : String
  ty : String
  required : Bool
deriving DecidableEq

/-- Modelled from the spec: an OperationSpec of the Operation Schema
Registry: operation name, ordered parameters and description. -/
structure OperationSpec where
  name : String
  ordered_params : List RegParam
  description : String
deriving DecidableEq

/-- Modelled from the spec: the Registry entry for upload. -/
def uploadSpec : OperationSpec :=
  ⟨"upload",
   [⟨"bucket", "str", true⟩, ⟨"source", "str", true⟩, ⟨"destination", "str", true⟩],
   "Upload a file to object storage"⟩

/-- Modelled from the spec: the Registry entry for download. -/
def downloadSpec : OperationSpec :=
  ⟨"download",
   [⟨"bucket", "str", true⟩, ⟨"source", "str", true⟩, ⟨"destination", "str", true⟩],
   "Download a file from object storage"⟩

/-- Modelled from the spec: the Registry entry for delete. -/
def deleteSpec : OperationSpec :=
  ⟨"delete", [⟨"bucket", "str", true⟩, ⟨"path", "str", true⟩],
   "Delete an object from storage"⟩

/-- Modelled from the spec: the Registry entry for list objects. -/
def list_objectsSpec : OperationSpec :=
  ⟨"list_objects", [⟨"bucket", "str", true⟩, ⟨"prefix", "str", false⟩],
   "List objects in a bucket with optional prefix"⟩

/-- Modelled from the spec: the canonical Operation Schema Registry, the
fixed versioned set of agnostic operations. -/
def theRegistry : List OperationSpec :=
  [uploadSpec, downloadSpec, deleteSpec, list_objectsSpec]

/-- Modelled from the spec: in a NativeCallTemplate an agnostic parameter
maps either to a native parameter name or to a fixed value inserted
verbatim. -/
inductive ArgTarget where
  | nativeParam : String → ArgTarget
  | fixedValue : String → ArgTarget
deriving DecidableEq

/-- Modelled from the spec: a NativeCallTemplate: target symbol path,
argument mapping and whether the native call needs a client handle. -/
structure NativeCallTemplate where
  target_symbol_path : String
  argument_mapping : List (String × ArgTarget)
  requires_client_handle : Bool
deriving DecidableEq

/-- Modelled from the spec: a ProviderAdapter: per-operation templates, the
preamble import statements and the client-construction statement. -/
structure ProviderAdapter where
  provider_id : String
  per_operation : List (String × NativeCallTemplate)
  preamble : List String
  client_ctor : String
deriving DecidableEq

/-- Modelled from the spec: an argument at a call site: positional
expression text, or keyword name with expression text. The Scanner never
evaluates argument expressions, so they stay opaque text fragments. -/
inductive CallArg where
  | pos : String → CallArg
  | kw : String → String → CallArg
deriving DecidableEq

/-- Modelled from the spec: the structural representation of one statement
of a source file as the Scanner sees it: a module-level documentation
statement, an opaque statement with its exact text, or a call statement
with a resolved callee symbol and arguments. -/
inductive Stmt where
  | doc : String → Stmt
  | raw : String → Stmt
  | call : String → List CallArg → Stmt
deriving DecidableEq

/-- Modelled from the spec: the exact text of an argument as written. -/
def argText : CallArg → String
  | CallArg.pos e => e
  | CallArg.kw n e => n ++ "=" ++ e

/-- Modelled from the spec: the exact statement text, used by the Injector
to detect statements already present. -/
def stmtText : Stmt → String
  | Stmt.doc t => t
  | Stmt.raw t => t
  | Stmt.call f args => f ++ "(" ++ String.intercalate ", " (args.map argText) ++ ")"

/-- Modelled from the spec: a located call site: statement index inside the
file, operation name, and the mapping from parameter names to the opaque
argument expressions supplied for them. -/
structure CallSite where
  index : Nat
  operation_name : String
  arguments : List (String × String)
deriving DecidableEq

/-- Modelled from the spec: a Diagnostic: severity, the index of the
offending call site when there is one, and a message. -/
structure Diagnostic where
  severity : Sev
  call_site : Option Nat
  message : String
deriving DecidableEq

/-- Modelled from the spec: tests whether a call argument is positional. -/
def argIsPos : CallArg → Bool
  | CallArg.pos _ => true
  | CallArg.kw _ _ => false

/-- Modelled from the spec: the expressions of the leading positional arguments. -/
def posExprs (args : List CallArg) : List String :=
  (args.takeWhile argIsPos).map argText

/-- Modelled from the spec: the keyword arguments after the positional block. -/
def kwPairs (args : List CallArg) : List (String × String) :=
  (args.dropWhile argIsPos).filterMap fun a =>
    match a with
    | CallArg.kw n e => some (n, e)
    | CallArg.pos _ => Option.none

/-- Modelled from the spec: a call is well formed when no positional argument
follows a keyword argument. -/
def argsWellFormed (args : List CallArg) : Bool :=
  (args.dropWhile argIsPos).all (fun a => !(argIsPos a))

/-- Modelled from the spec: the Scanner extracts argument bindings by keyword
when present, falling back to positional order from the OperationSpec.
Returns nothing when the call uses an unrecognized keyword, gives a
parameter two values, passes too many positional arguments, or omits a
required parameter. -/
def scanBind (params : List RegParam) (args : List CallArg) :
    Option (List (String × String)) :=
  if !(argsWellFormed args) then Option.none
  else
    let pos := posExprs args
    let kw := kwPairs args
    if params.length < pos.length then Option.none
    else if kw.any (fun a => !(params.any (fun p => p.name == a.1))) then Option.none
    else if kw.any (fun a =>
        match params.findIdx? (fun p => p.name == a.1) with
        | some j => decide (j < pos.length)
        | Option.none => true) then Option.none
    else
      let bound := ((params.zip pos).map (fun pe => (pe.1.name, pe.2))) ++ kw
      if params.all (fun p => !p.required || bound.any (fun b => b.1 == p.name)) then
        some bound
      else Option.none

/-- Modelled from the spec: the Scanner result for one statement at index i:
a CallSite when the statement is a recognized agnostic call with
extractable bindings, an error Diagnostic when it is an agnostic call
whose argument list cannot be extracted, nothing otherwise. -/
def stmtScan (reg : List OperationSpec) (i : Nat) : Stmt → Option (CallSite ⊕ Diagnostic)
  | Stmt.call f args =>
    match reg.find? (fun sp => sp.name == f) with
    | some sp =>
      match scanBind sp.ordered_params args with
      | some bound => some (Sum.inl ⟨i, f, bound⟩)
      | Option.none => some (Sum.inr ⟨Sev.error, some i,
          "cannot extract argument bindings for call of " ++ f⟩)
    | Option.none => Option.none
  | _ => Option.none

/-- Modelled from the spec: scan a source file: locate call sites of
Registry operations and report error diagnostics for unextractable calls. -/
def scanFile (reg : List OperationSpec) (file : List Stmt) :
    List CallSite × List Diagnostic :=
  let tagged := file.enum.filterMap (fun p => stmtScan reg p.1 p.2)
  (tagged.filterMap (fun x =>
      match x with | Sum.inl c => some c | Sum.inr _ => Option.none),
   tagged.filterMap (fun x =>
      match x with | Sum.inr d => some d | Sum.inl _ => Option.none))

/-- Modelled from the spec: build the native argument list by substituting
each agnostic argument expression into its mapped native parameter and
inserting fixed values verbatim. -/
def rewriteArgs (tmpl : NativeCallTemplate) (bound : List (String × String)) :
    List CallArg :=
  tmpl.argument_mapping.filterMap fun m =>
    match m.2 with
    | ArgTarget.fixedValue v => some (CallArg.kw m.1 v)
    | ArgTarget.nativeParam n =>
      match bound.lookup m.1 with
      | some e => some (CallArg.kw n e)
      | Option.none => Option.none

/-- Modelled from the spec: the Call Rewriter on one statement: a recognized
agnostic call with a template and extractable bindings becomes the native
call; every other statement is preserved untouched. -/
def rewriteStmt (adapter : ProviderAdapter) (reg : List OperationSpec) :
    Stmt → Stmt
  | Stmt.call f args =>
    (match reg.find? (fun sp => sp.name == f), adapter.per_operation.lookup f with
     | some sp, some tmpl =>
       match scanBind sp.ordered_params args with
       | some bound => Stmt.call tmpl.target_symbol_path (rewriteArgs tmpl bound)
       | Option.none => Stmt.call f args
     | _, _ => Stmt.call f args)
  | s => s

/-- Modelled from the spec: number of leading module-documentation
statements; the Injector inserts right after them. -/
def countLeadingDocs : List Stmt → Nat
  | Stmt.doc _ :: rest => countLeadingDocs rest + 1
  | _ => 0

/-- Modelled from the spec: whether a statement with exactly the text t is
already present in the source; this is how the Injector detects duplicates. -/
def hasLine (source : List Stmt) (t : String) : Bool :=
  source.any (fun s => stmtText s == t)

/-- Modelled from the spec: whether some used operation requires a client
handle under this adapter. -/
def needsClient (adapter : ProviderAdapter) (usedOps : List String) : Bool :=
  usedOps.any fun op =>
    match adapter.per_operation.lookup op with
    | some tmpl => tmpl.requires_client_handle
    | Option.none => false

/-- Modelled from the spec: the candidate preamble lines actually needed:
the adapter preamble plus the client constructor exactly once, and nothing
at all when no operation was used. -/
def neededLines (adapter : ProviderAdapter) (usedOps : List String) : List String :=
  if usedOps.isEmpty then []
  else adapter.preamble ++
    (if needsClient adapter usedOps then [adapter.client_ctor] else [])

/-- Modelled from the spec: the Import/Preamble Injector: add the needed
preamble lines whose exact text is not already present, at the stable
insertion point after the leading module documentation. -/
def inject (source : List Stmt) (adapter : ProviderAdapter) (usedOps : List String) :
    List Stmt :=
  let fresh := (neededLines adapter usedOps).filter (fun t => !(hasLine source t))
  source.take (countLeadingDocs source) ++ fresh.map Stmt.raw ++
    source.drop (countLeadingDocs source)

/-- Modelled from the spec: an input source file: its path and its parsed
statements. -/
structure SourceFile where
  path : String
  stmts : List Stmt
deriving DecidableEq

/-- Modelled from the spec: a TransformResult: the file path, the rewritten
source when one is emitted, and the accumulated diagnostics. -/
structure TransformResult where
  file_path : String
  rewritten_source : Option (List Stmt)
  diagnostics : List Diagnostic
deriving DecidableEq

/-- Modelled from the spec: coverage of one operation by the selected
adapter: a template exists and its argument mapping covers every required
parameter. -/
def opCovered (adapter : ProviderAdapter) (sp : OperationSpec) : Bool :=
  match adapter.per_operation.lookup sp.name with
  | some tmpl =>
    sp.ordered_params.all fun p =>
      !p.required || tmpl.argument_mapping.any (fun m => m.1 == p.name)
  | Option.none => false

/-- Modelled from the spec: the fatal configuration Diagnostic naming the
uncovered operation and the provider. -/
def coverageDiag (adapter : ProviderAdapter) (opName : String) : Diagnostic :=
  ⟨Sev.error, Option.none,
   "fatal configuration error: adapter for provider " ++ adapter.provider_id ++
     " does not cover operation " ++ opName⟩

/-- Modelled from the spec: adapter validation against the Registry, run
once at startup: one fatal Diagnostic per uncovered operation. -/
def validateAdapter (adapter : ProviderAdapter) (reg : List OperationSpec) :
    List Diagnostic :=
  reg.filterMap fun sp =>
    if opCovered adapter sp then Option.none else some (coverageDiag adapter sp.name)

/-- Modelled from the spec: the per-file pipeline: scan, and when the file
has no error-level diagnostics, rewrite every call site and inject the
preamble; otherwise emit no rewritten source, only the diagnostics. -/
def processFile (adapter : ProviderAdapter) (reg : List OperationSpec)
    (f : SourceFile) : TransformResult :=
  let scanned := scanFile reg f.stmts
  if scanned.2.any (fun d => d.severity == Sev.error) then
    ⟨f.path, Option.none, scanned.2⟩
  else
    ⟨f.path,
     some (inject (f.stmts.map (rewriteStmt adapter reg)) adapter
       (scanned.1.map (fun c => c.operation_name))),
     scanned.2⟩

/-- Modelled from the spec: the Transform Orchestrator: validate the
selected adapter first and abort the whole run on any coverage gap, with
zero results and the configuration diagnostics; otherwise process each
file independently. -/
def transform (files : List SourceFile) (adapter : ProviderAdapter) :
    List TransformResult × List Diagnostic :=
  let cfg := validateAdapter adapter theRegistry
  if cfg.isEmpty then (files.map (processFile adapter theRegistry), []) else ([], cfg)

/-! Theorems about the transformer model (Part B). -/

/-- Modelled from the spec: how many statements of a file carry exactly the
text t; used to state that injection creates no duplicates. -/
def countText (file : List Stmt) (t : String) : Nat :=
  (file.filter (fun s => stmtText s == t)).length

/-- Helper: every statement of the original source survives injection. -/
theorem mem_inject_of_mem (source : List Stmt) (adapter : ProviderAdapter)
    (usedOps : List String) (x : Stmt) (hx : x ∈ source) :
    x ∈ inject source adapter usedOps := by
  unfold inject
  have hx' : x ∈ source.take (countLeadingDocs source) ++
      source.drop (countLeadingDocs source) := by
    rw [List.take_append_drop]; exact hx
  rcases List.mem_append.mp hx' with h | h
  · exact List.mem_append.mpr (Or.inl (List.mem_append.mpr (Or.inl h)))
  · exact List.mem_append.mpr (Or.inr h)

/-- Helper: after injection every needed preamble line is present by text. -/
theorem hasLine_inject (source : List Stmt) (adapter : ProviderAdapter)
    (usedOps : List String) (t : String) (ht : t ∈ neededLines adapter usedOps) :
    hasLine (inject source adapter usedOps) t = true := by
  by_cases hsrc : hasLine source t = true
  · obtain ⟨x, hx, hxt⟩ := List.any_eq_true.mp hsrc
    exact List.any_eq_true.mpr
      ⟨x, mem_inject_of_mem source adapter usedOps x hx, hxt⟩
  · refine List.any_eq_true.mpr ⟨Stmt.raw t, ?_, by simp [stmtText]⟩
    unfold inject
    have hmem : Stmt.raw t ∈
        ((neededLines adapter usedOps).filter
          (fun t' => !(hasLine source t'))).map Stmt.raw :=
      List.mem_map_of_mem Stmt.raw
        (List.mem_filter.mpr ⟨ht, by simp [hsrc]⟩)
    exact List.mem_append.mpr (Or.inl (List.mem_append.mpr (Or.inr hmem)))

/-- C7: the Import/Preamble Injector is idempotent: injecting twice with the
same adapter and used operations is byte-identical to injecting once, and a
preamble line already present in the source is never duplicated. -/
theorem injector_idempotent (source : List Stmt) (adapter : ProviderAdapter)
    (usedOps : List String) :
    inject (inject source adapter usedOps) adapter usedOps =
      inject source adapter usedOps ∧
    (∀ t, hasLine source t = true →
      countText (inject source adapter usedOps) t = countText source t) := by
  constructor
  · have hfilter : (neededLines adapter usedOps).filter
        (fun t => !(hasLine (inject source adapter usedOps) t)) = [] := by
      refine List.filter_eq_nil_iff.mpr (fun t ht => ?_)
      simp [hasLine_inject source adapter usedOps t ht]
    show (inject source adapter usedOps).take
        (countLeadingDocs (inject source adapter usedOps)) ++
      ((neededLines adapter usedOps).filter
        (fun t => !(hasLine (inject source adapter usedOps) t))).map Stmt.raw ++
      (inject source adapter usedOps).drop
        (countLeadingDocs (inject source adapter usedOps)) =
      inject source adapter usedOps
    rw [hfilter]
    simp [List.take_append_drop]
  · intro t ht
    unfold countText inject
    rw [List.filter_append, List.filter_append, List.length_append,
      List.length_append]
    have hmapnil : ((((neededLines adapter usedOps).filter
        (fun t' => !(hasLine source t'))).map Stmt.raw).filter
          (fun s => stmtText s == t)) = [] := by
      refine List.filter_eq_nil_iff.mpr (fun x hx => ?_)
      obtain ⟨t', ht', rfl⟩ := List.mem_map.mp hx
      have hnl := (List.mem_filter.mp ht').2
      intro hbeq
      have htt : t' = t := by simpa [stmtText] using hbeq
      rw [htt] at hnl
      simp [ht] at hnl
    rw [hmapnil]
    conv_rhs => rw [← List.take_append_drop (countLeadingDocs source) source,
      List.filter_append, List.length_append]
    simp

/-- C7 witness: a concrete double injection equals the single one and a line
already present is not duplicated. -/
theorem injector_idempotent_witness :
    inject (inject [Stmt.doc "docstring", Stmt.raw "import boto3",
        Stmt.call "upload" []]
        ⟨"aws", [], ["import boto3"], "client = make()"⟩ ["upload"])
      ⟨"aws", [], ["import boto3"], "client = make()"⟩ ["upload"] =
      inject [Stmt.doc "docstring", Stmt.raw "import boto3",
        Stmt.call "upload" []]
        ⟨"aws", [], ["import boto3"], "client = make()"⟩ ["upload"] ∧
    countText (inject [Stmt.doc "docstring", Stmt.raw "import boto3",
        Stmt.call "upload" []]
        ⟨"aws", [], ["import boto3"], "client = make()"⟩ ["upload"])
      "import boto3" =
      countText [Stmt.doc "docstring", Stmt.raw "import boto3",
        Stmt.call "upload" []] "import boto3" :=
  ⟨(injector_idempotent [Stmt.doc "docstring", Stmt.raw "import boto3",
      Stmt.call "upload" []]
      ⟨"aws", [], ["import boto3"], "client = make()"⟩ ["upload"]).1,
   (injector_idempotent [Stmt.doc "docstring", Stmt.raw "import boto3",
      Stmt.call "upload" []]
      ⟨"aws", [], ["import boto3"], "client = make()"⟩ ["upload"]).2
     "import boto3" rfl⟩

/-- Helper: a successful association lookup means the pair is in the list. -/
theorem mem_of_lookup_eq_some {β : Type} {k : String} {l : List (String × β)}
    {b : β} (h : List.lookup k l = some b) : (k, b) ∈ l := by
  induction l with
  | nil => simp [List.lookup] at h
  | cons hd tl ih =>
    rw [List.lookup] at h
    by_cases hk : (k == hd.1) = true
    · rw [hk] at h
      have hkey : k = hd.1 := by simpa using hk
      have hval : hd.2 = b := by simpa using h
      have hkb : (k, b) = hd := by rw [hkey, ← hval]
      rw [hkb]
      exact List.mem_cons_self hd tl
    · rw [Bool.not_eq_true] at hk
      rw [hk] at h
      exact List.mem_cons_of_mem hd (ih h)

/-- Helper: the statement component of an enumerated entry is in the list. -/
theorem snd_mem_of_mem_enum {α : Type} {l : List α} {p : Nat × α}
    (h : p ∈ l.enum) : p.2 ∈ l := by
  have hmap : p.2 ∈ l.enum.map Prod.snd := List.mem_map_of_mem Prod.snd h
  simpa [List.enum_map_snd] using hmap

/-- Helper: the scan produces no call site from any statement the Rewriter
has already processed, provided the adapter covers every Registry
operation and no native target symbol collides with an agnostic name. -/
theorem stmtScan_rewriteStmt_ne_site (adapter : ProviderAdapter)
    (reg : List OperationSpec)
    (hcov : ∀ sp ∈ reg, (adapter.per_operation.lookup sp.name).isSome = true)
    (hdis : ∀ m ∈ adapter.per_operation, ∀ sp ∈ reg,
      ¬sp.name = m.2.target_symbol_path)
    (s₀ : Stmt) (i : Nat) (c : CallSite) :
    ¬stmtScan reg i (rewriteStmt adapter reg s₀) = some (Sum.inl c) := by
  cases s₀ with
  | doc t => simp [rewriteStmt, stmtScan]
  | raw t => simp [rewriteStmt, stmtScan]
  | call f args =>
    cases hfind : reg.find? (fun sp => sp.name == f) with
    | none =>
      simp only [rewriteStmt, hfind]
      simp [stmtScan, hfind]
    | some sp =>
      have hspmem : sp ∈ reg := List.mem_of_find?_eq_some hfind
      have hspname : sp.name = f := by simpa using List.find?_some hfind
      have hlook := hcov sp hspmem
      rw [hspname] at hlook
      cases hlookup : adapter.per_operation.lookup f with
      | none => rw [hlookup] at hlook; simp at hlook
      | some tmpl =>
        cases hbind : scanBind sp.ordered_params args with
        | none =>
          simp only [rewriteStmt, hfind, hlookup, hbind]
          simp [stmtScan, hfind, hbind]
        | some bound =>
          simp only [rewriteStmt, hfind, hlookup, hbind]
          have hpair : (f, tmpl) ∈ adapter.per_operation :=
            mem_of_lookup_eq_some hlookup
          have hfind2 : reg.find?
              (fun sp' => sp'.name == tmpl.target_symbol_path) = none := by
            refine List.find?_eq_none.mpr (fun sp' hsp' => ?_)
            simpa using hdis (f, tmpl) hpair sp' hsp'
          simp [stmtScan, hfind2]

/-- Helper: when no enumerated statement can produce a call site, the scan
returns zero call sites. -/
theorem scanFile_sites_nil (reg : List OperationSpec) (file : List Stmt)
    (h : ∀ p ∈ file.enum, ∀ c : CallSite,
      ¬stmtScan reg p.1 p.2 = some (Sum.inl c)) :
    (scanFile reg file).1 = [] := by
  unfold scanFile
  refine List.filterMap_eq_nil_iff.mpr (fun x hx => ?_)
  obtain ⟨p, hp, hsc⟩ := List.mem_filterMap.mp hx
  cases x with
  | inl c => exact absurd hsc (h p hp c)
  | inr d => rfl

/-- Helper: every statement of an injected file is either a mapped original
statement or an inserted raw preamble line. -/
theorem mem_inject_cases (source : List Stmt) (adapter : ProviderAdapter)
    (usedOps : List String) (s : Stmt) (h : s ∈ inject source adapter usedOps) :
    s ∈ source ∨ ∃ t, s = Stmt.raw t := by
  unfold inject at h
  rcases List.mem_append.mp h with h1 | h2
  · rcases List.mem_append.mp h1 with h3 | h4
    · exact Or.inl ((List.take_sublist _ _).subset h3)
    · obtain ⟨t, _, rfl⟩ := List.mem_map.mp h4
      exact Or.inr ⟨t, rfl⟩
  · exact Or.inl ((List.drop_sublist _ _).subset h2)

/-- C8: round-trip elimination: when the run was not aborted by adapter
validation and a file was successfully rewritten, re-scanning the rewritten
file for agnostic-operation call sites yields zero matches, provided no
native target symbol path coincides with an agnostic operation name. -/
theorem rewrite_roundtrip_eliminates_agnostic_calls
    (adapter : ProviderAdapter) (files : List SourceFile)
    (results : List TransformResult) (r : TransformResult) (out : List Stmt)
    (hdis : ∀ m ∈ adapter.per_operation, ∀ sp ∈ theRegistry,
      ¬sp.name = m.2.target_symbol_path)
    (hrun : transform files adapter = (results, []))
    (hr : r ∈ results) (hout : r.rewritten_source = some out) :
    (scanFile theRegistry out).1 = [] := by
  rw [show transform files adapter =
      (if (validateAdapter adapter theRegistry).isEmpty then
        (files.map (processFile adapter theRegistry), [])
      else ([], validateAdapter adapter theRegistry)) from rfl] at hrun
  by_cases hempty : (validateAdapter adapter theRegistry).isEmpty = true
  case neg =>
    rw [if_neg hempty] at hrun
    have hsnd : validateAdapter adapter theRegistry = [] := congrArg Prod.snd hrun
    exact absurd (List.isEmpty_iff.mpr hsnd) hempty
  case pos =>
    rw [if_pos hempty] at hrun
    have hres : results = files.map (processFile adapter theRegistry) :=
      (congrArg Prod.fst hrun).symm
    have hval : validateAdapter adapter theRegistry = [] :=
      List.isEmpty_iff.mp hempty
    have hcov : ∀ sp ∈ theRegistry,
        (adapter.per_operation.lookup sp.name).isSome = true := by
      intro sp hsp
      have hnone := List.filterMap_eq_nil_iff.mp hval sp hsp
      by_cases hc : opCovered adapter sp = true
      · unfold opCovered at hc
        cases hl : adapter.per_operation.lookup sp.name with
        | none => rw [hl] at hc; simp at hc
        | some tmpl => simp
      · rw [if_neg hc] at hnone
        simp at hnone
    rw [hres] at hr
    obtain ⟨f, hf, hpf⟩ := List.mem_map.mp hr
    rw [show processFile adapter theRegistry f =
        (if (scanFile theRegistry f.stmts).2.any
            (fun d => d.severity == Sev.error) then
          ⟨f.path, Option.none, (scanFile theRegistry f.stmts).2⟩
        else
          ⟨f.path,
           some (inject (f.stmts.map (rewriteStmt adapter theRegistry)) adapter
             ((scanFile theRegistry f.stmts).1.map (fun c => c.operation_name))),
           (scanFile theRegistry f.stmts).2⟩ : TransformResult) from rfl] at hpf
    by_cases herr : (scanFile theRegistry f.stmts).2.any
        (fun d => d.severity == Sev.error) = true
    case pos =>
      rw [if_pos herr] at hpf
      rw [← hpf] at hout
      simp at hout
    case neg =>
      rw [if_neg herr] at hpf
      rw [← hpf] at hout
      simp only [Option.some.injEq] at hout
      refine scanFile_sites_nil theRegistry out (fun p hp c => ?_)
      have hmem : p.2 ∈ out := snd_mem_of_mem_enum hp
      rw [← hout] at hmem
      rcases mem_inject_cases _ _ _ _ hmem with hmap | ⟨t, hraw⟩
      · obtain ⟨s₀, _, hs₀⟩ := List.mem_map.mp hmap
        rw [← hs₀]
        exact stmtScan_rewriteStmt_ne_site adapter theRegistry hcov hdis s₀ p.1 c
      · rw [hraw]
        simp [stmtScan]

/-- Modelled from the spec: a concrete AWS-style adapter used to exercise
the pipeline: every Registry operation has a template, the preamble is the
boto3 import and a one-time client construction. -/
def awsAdapter : ProviderAdapter :=
  ⟨"aws",
   [("upload", ⟨"s3_client.upload_file",
      [("source", ArgTarget.nativeParam "Filename"),
       ("bucket", ArgTarget.nativeParam "Bucket"),
       ("destination", ArgTarget.nativeParam "Key")], true⟩),
    ("download", ⟨"s3_client.download_file",
      [("bucket", ArgTarget.nativeParam "Bucket"),
       ("source", ArgTarget.nativeParam "Key"),
       ("destination", ArgTarget.nativeParam "Filename")], true⟩),
    ("delete", ⟨"s3_client.delete_object",
      [("bucket", ArgTarget.nativeParam "Bucket"),
       ("path", ArgTarget.nativeParam "Key")], true⟩),
    ("list_objects", ⟨"s3_client.list_objects_v2",
      [("bucket", ArgTarget.nativeParam "Bucket"),
       ("prefix", ArgTarget.nativeParam "Prefix")], true⟩)],
   ["import boto3"],
   "s3_client = boto3.client(\"s3\")"⟩

/-- A concrete input file with one agnostic upload call. -/
def demoFile : SourceFile :=
  ⟨"app.py",
   [Stmt.doc "\"\"\"demo\"\"\"",
    Stmt.call "upload"
      [CallArg.kw "bucket" "\"b\"", CallArg.kw "source" "\"s\"",
       CallArg.kw "destination" "\"d\""],
    Stmt.raw "x = 1"]⟩

/-- The rewritten source the pipeline emits for the demo file. -/
def demoOut : List Stmt :=
  ((processFile awsAdapter theRegistry demoFile).rewritten_source).getD []

/-- C8 witness: the concrete demo file, successfully rewritten for the AWS
adapter, re-scans to zero agnostic call sites. -/
theorem rewrite_roundtrip_eliminates_agnostic_calls_witness :
    (scanFile theRegistry demoOut).1 = [] :=
  rewrite_roundtrip_eliminates_agnostic_calls awsAdapter [demoFile]
    [processFile awsAdapter theRegistry demoFile]
    (processFile awsAdapter theRegistry demoFile) demoOut
    (by decide) rfl (List.mem_cons_self _ _) rfl

/-- C9: when the selected adapter lacks a template for delete but covers the
other three operations, transform over any file set returns zero
TransformResults and exactly one fatal configuration Diagnostic, whose
message names delete; no file is processed. -/
theorem missing_delete_template_aborts_transform
    (adapter : ProviderAdapter) (files : List SourceFile)
    (hdel : adapter.per_operation.lookup "delete" = Option.none)
    (hup : opCovered adapter uploadSpec = true)
    (hdown : opCovered adapter downloadSpec = true)
    (hlist : opCovered adapter list_objectsSpec = true) :
    transform files adapter = ([], [coverageDiag adapter "delete"]) ∧
    coverageDiag adapter "delete" = ⟨Sev.error, Option.none,
      "fatal configuration error: adapter for provider " ++ adapter.provider_id ++
        " does not cover operation " ++ "delete"⟩ := by
  have hdelcov : opCovered adapter deleteSpec = false := by
    unfold opCovered
    have hname : deleteSpec.name = "delete" := rfl
    rw [hname, hdel]
  have hval : validateAdapter adapter theRegistry =
      [coverageDiag adapter "delete"] := by
    unfold validateAdapter theRegistry
    simp [List.filterMap_cons, hup, hdown, hlist, hdelcov]
    rfl
  refine ⟨?_, rfl⟩
  rw [show transform files adapter =
      (if (validateAdapter adapter theRegistry).isEmpty then
        (files.map (processFile adapter theRegistry), [])
      else ([], validateAdapter adapter theRegistry)) from rfl]
  rw [hval]
  simp

/-- Modelled from the spec: a concrete adapter that covers upload, download
and list objects but lacks any template for delete. -/
def incompleteAdapter : ProviderAdapter :=
  ⟨"gcp",
   [("upload", ⟨"client.upload",
      [("bucket", ArgTarget.nativeParam "bucket_name"),
       ("source", ArgTarget.nativeParam "src"),
       ("destination", ArgTarget.nativeParam "dst")], true⟩),
    ("download", ⟨"client.download",
      [("bucket", ArgTarget.nativeParam "bucket_name"),
       ("source", ArgTarget.nativeParam "src"),
       ("destination", ArgTarget.nativeParam "dst")], true⟩),
    ("list_objects", ⟨"client.list_blobs",
      [("bucket", ArgTarget.nativeParam "bucket_name"),
       ("prefix", ArgTarget.nativeParam "pfx")], true⟩)],
   ["from google.cloud import storage"],
   "client = storage.Client()"⟩

/-- C9 witness: with the concrete incomplete adapter, transforming a file
set produces zero results and the single fatal diagnostic naming delete. -/
theorem missing_delete_template_aborts_transform_witness :
    transform [⟨"app.py", [Stmt.call "delete"
        [CallArg.kw "bucket" "\"b\"", CallArg.kw "path" "\"p\""]]⟩]
      incompleteAdapter = ([], [coverageDiag incompleteAdapter "delete"]) :=
  (missing_delete_template_aborts_transform incompleteAdapter
    [⟨"app.py", [Stmt.call "delete"
        [CallArg.kw "bucket" "\"b\"", CallArg.kw "path" "\"p\""]]⟩]
    rfl rfl rfl rfl).1
